import Mathlib

/-!
Verification development for the `card_deck` repository
(`src/card_deck/assets.py`, with `src/cards.py` as an earlier revision).

The Python module is shallowly embedded: pure methods become Lean
functions, fallible methods return `Except PyError`, and the mutable
heap (Python objects holding references to shared `list` objects) is
modelled by an explicit store `PyState` for the operations whose
behaviour depends on aliasing (`Pile.copy`, `Pile.__add__`).

Python-semantics notes recorded where they matter:
- `Faces` and `Suits` are plain `enum.Enum` classes; `enum.Enum`
  members support `==` but define no `__lt__`, so evaluating
  `face1 < face2` raises `TypeError` ("'<' not supported between
  instances of 'Faces' and 'Faces'").  `Card.__lt__` evaluates
  `self._face < other.face` first, hence raises for every pair.
- `list.insert(i, x)` never raises: the index is clamped (negative
  indices count from the end, then the result is clamped to `[0, len]`).
- `list.extend(other)` mutates in place and returns `None`.
- truthiness of a `Pile` uses `__len__` (nonempty iff length is not 0),
  which is what the keywords `or` / `and` in `Pile.__xor__` consult.
-/

namespace CardDeck

/-- The `Suits` enum of `assets.py`: DIAMONDS = 1, CLUBS = 2, HEARTS = 3,
SPADES = 4, in declaration order. -/
inductive Suits where
  | DIAMONDS
  | CLUBS
  | HEARTS
  | SPADES
deriving DecidableEq, Fintype, Repr

/-- The `Faces` enum of `assets.py`: ACE = 1 through KING = 13, in
declaration order. -/
inductive Faces where
  | ACE
  | TWO
  | THREE
  | FOUR
  | FIVE
  | SIX
  | SEVEN
  | EIGHT
  | NINE
  | TEN
  | JACK
  | QUEEN
  | KING
deriving DecidableEq, Fintype, Repr

/-- The numeric `value` of each `Suits` member, as declared in the enum. -/
def suitsValue : Suits → Nat
  | .DIAMONDS => 1
  | .CLUBS => 2
  | .HEARTS => 3
  | .SPADES => 4

/-- The numeric `value` of each `Faces` member, as declared in the enum. -/
def facesValue : Faces → Nat
  | .ACE => 1
  | .TWO => 2
  | .THREE => 3
  | .FOUR => 4
  | .FIVE => 5
  | .SIX => 6
  | .SEVEN => 7
  | .EIGHT => 8
  | .NINE => 9
  | .TEN => 10
  | .JACK => 11
  | .QUEEN => 12
  | .KING => 13

/-- `Card` from `assets.py`: an immutable (face, suit) pair.
`Card.__eq__` compares both fields, which is the derived equality. -/
structure Card where
  face : Faces
  suit : Suits
deriving DecidableEq, Fintype, Repr

/-- The error/exception kinds the embedded code can raise:
`CardError` and `PileError` from `assets.py`, plus Python's builtin
`TypeError` and `IndexError`. -/
inductive PyError where
  | typeError
  | cardError
  | pileError
  | indexError
deriving DecidableEq, Repr

/-- Evaluating `f1 < f2` on two members of the plain `enum.Enum` class
`Faces` raises `TypeError`: `enum.Enum` defines no ordering methods.
Modelled from Python semantics of the enum class declared in
`assets.py`. -/
def facesLtPy (_ _ : Faces) : Except PyError Bool :=
  .error .typeError

/-- Evaluating `s1 < s2` on two members of the plain `enum.Enum` class
`Suits` raises `TypeError`, exactly as for `Faces`. -/
def suitsLtPy (_ _ : Suits) : Except PyError Bool :=
  .error .typeError

/-- `Card.__lt__` from `assets.py` (lines 139-145):
`if self._face < other.face: return True` and otherwise
`return self._suit < other.suit`.  Each enum comparison is itself
fallible (it raises `TypeError`), so the whole method is fallible. -/
def cardLtPy (a b : Card) : Except PyError Bool := do
  let f ← facesLtPy a.face b.face
  if f then
    pure true
  else
    suitsLtPy a.suit b.suit

/-- `Card.LOOKUP_FACE_CHAR` from `assets.py`: the display/typeable token
of each face, `"A,2,3,4,5,6,7,8,9,10,J,Q,K"` split on commas and zipped
with the faces in declaration order.  Note the `TEN` token is the
two-character string `"10"`. -/
def LOOKUP_FACE_CHAR : Faces → List Char
  | .ACE => ['A']
  | .TWO => ['2']
  | .THREE => ['3']
  | .FOUR => ['4']
  | .FIVE => ['5']
  | .SIX => ['6']
  | .SEVEN => ['7']
  | .EIGHT => ['8']
  | .NINE => ['9']
  | .TEN => ['1', '0']
  | .JACK => ['J']
  | .QUEEN => ['Q']
  | .KING => ['K']

/-- `Card.LOOKUP_SUIT_LETTER` from `assets.py`: the first letter of each
suit's name. -/
def LOOKUP_SUIT_LETTER : Suits → Char
  | .DIAMONDS => 'D'
  | .CLUBS => 'C'
  | .HEARTS => 'H'
  | .SPADES => 'S'

/-- `Card.LOOKUP_FACE_TYPEABLE` from `assets.py`: the inversion of
`LOOKUP_FACE_CHAR`, keyed by token strings.  The key `"10"` (for `TEN`)
is present in the dictionary even though the parser only ever looks up
single-character strings. -/
def LOOKUP_FACE_TYPEABLE : List Char → Option Faces
  | ['A'] => some .ACE
  | ['2'] => some .TWO
  | ['3'] => some .THREE
  | ['4'] => some .FOUR
  | ['5'] => some .FIVE
  | ['6'] => some .SIX
  | ['7'] => some .SEVEN
  | ['8'] => some .EIGHT
  | ['9'] => some .NINE
  | ['1', '0'] => some .TEN
  | ['J'] => some .JACK
  | ['Q'] => some .QUEEN
  | ['K'] => some .KING
  | _ => none

/-- `Card.LOOKUP_SUIT_TYPEABLE` from `assets.py`: the inversion of
`LOOKUP_SUIT_LETTER`, keyed by the single suit letters. -/
def LOOKUP_SUIT_TYPEABLE : Char → Option Suits
  | 'D' => some .DIAMONDS
  | 'C' => some .CLUBS
  | 'H' => some .HEARTS
  | 'S' => some .SPADES
  | _ => none

/-- `Card.get_typeable_name` from `assets.py` (lines 129-133):
`LOOKUP_FACE_CHAR[self._face] + LOOKUP_SUIT_LETTER[self._suit]`.
Strings are modelled as lists of characters. -/
def get_typeable_name (c : Card) : List Char :=
  LOOKUP_FACE_CHAR c.face ++ [LOOKUP_SUIT_LETTER c.suit]

/-- `Card.get_from_typeable_name` from `assets.py` (lines 99-127).
If the input's length is not exactly 2 it returns `None`; otherwise the
first character is looked up as a face token (raising `CardError` on
failure) and the upper-cased second character as a suit letter (raising
`CardError` on failure); on success it returns the card. -/
def get_from_typeable_name (t : List Char) : Except PyError (Option Card) :=
  match t with
  | [c0, c1] =>
    match LOOKUP_FACE_TYPEABLE [c0] with
    | none => .error .cardError
    | some face =>
      match LOOKUP_SUIT_TYPEABLE c1.toUpper with
      | none => .error .cardError
      | some suit => .ok (some ⟨face, suit⟩)
  | _ => .ok none

/-! ## Pile operations that do not depend on aliasing

A pile's contents are its `_cards` list; operations that only read the
list, or whose callers immediately rebind the result, are modelled as
pure functions on `List Card`. -/

/-- `Pile.pop` from `assets.py` (lines 186-190): raise `PileError` on an
empty pile, otherwise `list.pop()` removes and returns the LAST element.
Returns the popped card together with the remaining list. -/
def pilePop (cs : List Card) : Except PyError (Card × List Card) :=
  if h : cs = [] then
    .error .pileError
  else
    .ok (cs.getLast h, cs.dropLast)

/-- Outcome of one inner `for j in range(num_sets)` loop of `Pile.deal`:
either the loop completed, or the `except IndexError` branch executed
`return sets` early, or an uncaught exception propagates. -/
inductive DealStep where
  | done (sets : List (List Card)) (src : List Card)
  | early (sets : List (List Card)) (src : List Card)
  | err (e : PyError)

/-- One round of `Pile.deal` (`assets.py` lines 231-235): for each set in
order, `sets[j].insert(self.pop())` inside `try ... except IndexError:
return sets`.  `Pile.insert` with no position appends at the end.  An
exception from `pop` other than `IndexError` is not caught. -/
def dealRound : List (List Card) → List Card → DealStep
  | [], src => .done [] src
  | s :: rest, src =>
    match pilePop src with
    | .error e =>
      if e = .indexError then .early (s :: rest) src else .err e
    | .ok (c, src') =>
      match dealRound rest src' with
      | .done rest' src'' => .done ((s ++ [c]) :: rest') src''
      | .early rest' src'' => .early ((s ++ [c]) :: rest') src''
      | .err e => .err e

/-- The outer `for _ in range(num_cards)` loop of `Pile.deal`. -/
def dealRounds : Nat → List (List Card) → List Card →
    Except PyError (List (List Card) × List Card)
  | 0, sets, src => .ok (sets, src)
  | n + 1, sets, src =>
    match dealRound sets src with
    | .done sets' src' => dealRounds n sets' src'
    | .early sets' src' => .ok (sets', src')
    | .err e => .error e

/-- `Pile.deal` from `assets.py` (lines 223-236): allocate `num_sets`
fresh empty piles, then run the nested loops.  Returns the dealt piles
together with the remaining source contents, or the uncaught
exception. -/
def pileDeal (numSets numCards : Nat) (src : List Card) :
    Except PyError (List (List Card) × List Card) :=
  dealRounds numCards (List.replicate numSets []) src

/-- Python `list.insert(position, card)` semantics: a negative position
counts from the end, and the result is clamped to `[0, len]`; it never
raises for any integer position. -/
def listInsertPy (cs : List Card) (position : Int) (c : Card) : List Card :=
  let n : Int := cs.length
  let p0 := if position < 0 then position + n else position
  let p1 := if p0 < 0 then 0 else p0
  let p2 := if p1 > n then n else p1
  cs.insertIdx p2.toNat c

/-- `Pile.insert` from `assets.py` (lines 204-209): with no position,
`position = len(self._cards)`; then `self._cards.insert(position, card)`. -/
def pileInsert (cs : List Card) (position : Option Int) (c : Card) : List Card :=
  match position with
  | none => listInsertPy cs (cs.length : Int) c
  | some p => listInsertPy cs p c

/-- `Pile.__sub__` from `assets.py` (lines 270-273):
`[item for item in self if item not in other]`. -/
def pileSub (a b : List Card) : List Card :=
  a.filter fun x => !(decide (x ∈ b))

/-- `Pile.__and__` from `assets.py` (lines 296-298):
`[item for item in self._cards if item in other.cards]`. -/
def pileAnd (a b : List Card) : List Card :=
  a.filter fun x => decide (x ∈ b)

/-- `Pile.__or__` from `assets.py` (lines 300-302):
`list(set(self._cards).union(set(other.cards)))`.  CPython's set
iteration order is unspecified (the spec documents the union as an
unordered result), so the union is modelled as the distinct cards of
both piles in first-occurrence order; only membership in the result is
relied upon by the theorems. -/
def pileOr (a b : List Card) : List Card :=
  (a ++ b).dedup

/-- Truthiness of a `Pile`: no `__bool__` is defined, so Python falls
back to `__len__`, giving nonempty iff true. -/
def pileTruthy (cs : List Card) : Bool :=
  cs.length != 0

/-- `Pile.__xor__` from `assets.py` (lines 304-305):
`(self or other) - (self and other)`.  These are the boolean keywords
`or` and `and` (not the overloaded `|` and `&` operators): `self or
other` evaluates to `self` when `self` is truthy and to `other`
otherwise, and `self and other` evaluates to `other` when `self` is
truthy and to `self` otherwise; `-` is `Pile.__sub__`. -/
def pileXor (a b : List Card) : List Card :=
  pileSub (if pileTruthy a then a else b) (if pileTruthy a then b else a)

/-! ## CPython `list.sort`

`Pile.sort` calls `self._cards.sort()`.  For a list of fewer than 64
elements CPython's sort (`listobject.c`) computes `minrun = n`, so the
whole algorithm is: find the initial run with `count_run` (reversing the
prefix if it is strictly descending), then extend it over the whole list
with `binarysort` (binary insertion sort).  Every pile in this
development has at most 52 cards, where this model is exact.
Comparisons go through the possibly-raising card comparator, and an
exception aborts the sort exactly as in CPython. -/

/-- `count_run`'s ascending scan: the run extends while
`not (next < prev)`.  Takes the current run length and returns the
final one. -/
def ascendRun (lt : Card → Card → Except PyError Bool) :
    Card → List Card → Nat → Except PyError Nat
  | _, [], n => pure n
  | prev, x :: rest, n => do
    let b ← lt x prev
    if b then pure n else ascendRun lt x rest (n + 1)

/-- `count_run`'s descending scan: the run extends while `next < prev`
(strictly descending). -/
def descendRun (lt : Card → Card → Except PyError Bool) :
    Card → List Card → Nat → Except PyError Nat
  | _, [], n => pure n
  | prev, x :: rest, n => do
    let b ← lt x prev
    if b then descendRun lt x rest (n + 1) else pure n

/-- The binary search of `binarysort`: locate the insertion point of
`pivot` in the sorted prefix, comparing `pivot < sorted[p]` at
`p = l + (r - l) / 2` and narrowing `[l, r)`.  Every probe has
`p < sorted.length`, so the `getD` default is never read. -/
def binSearchPos (lt : Card → Card → Except PyError Bool) (pivot : Card)
    (sorted : List Card) (l r : Nat) : Except PyError Nat :=
  if h : l < r then do
    let p := l + (r - l) / 2
    let b ← lt pivot (sorted.getD p pivot)
    if b then
      binSearchPos lt pivot sorted l p
    else
      binSearchPos lt pivot sorted (p + 1) r
  else
    pure l
termination_by r - l
decreasing_by
  · omega
  · omega

/-- `binarysort`'s outer loop: insert each remaining element into the
sorted prefix at its binary-search position. -/
def binInsertAll (lt : Card → Card → Except PyError Bool) :
    List Card → List Card → Except PyError (List Card)
  | sorted, [] => pure sorted
  | sorted, x :: rest => do
    let pos ← binSearchPos lt x sorted 0 sorted.length
    binInsertAll lt (sorted.insertIdx pos x) rest

/-- CPython `list.sort` on a list of fewer than 64 elements: detect the
initial run (first comparison is `lo[1] < lo[0]`), reverse it if
descending, then binary-insert the rest.  Lists of length 0 or 1 are
returned without any comparison. -/
def pyListSort (lt : Card → Card → Except PyError Bool) (l : List Card) :
    Except PyError (List Card) :=
  match l with
  | [] => pure []
  | [a] => pure [a]
  | a :: b :: rest => do
    let firstDesc ← lt b a
    if firstDesc then do
      let n ← descendRun lt b rest 2
      binInsertAll lt ((a :: b :: rest).take n).reverse ((a :: b :: rest).drop n)
    else do
      let n ← ascendRun lt b rest 2
      binInsertAll lt ((a :: b :: rest).take n) ((a :: b :: rest).drop n)

/-- `Pile.sort` from `assets.py` (lines 219-221): `self._cards.sort()`,
which compares elements with `Card.__lt__`. -/
def pileSort (cs : List Card) : Except PyError (List Card) :=
  pyListSort cardLtPy cs

/-- `Deck.__init__` from `assets.py` (lines 331-338): start from an
empty pile, then `for suit in Suits: for face in Faces:
self._cards.append(Card(face, suit))`. -/
def freshDeckCards : List Card :=
  [Suits.DIAMONDS, Suits.CLUBS, Suits.HEARTS, Suits.SPADES].flatMap fun s =>
    [Faces.ACE, Faces.TWO, Faces.THREE, Faces.FOUR, Faces.FIVE, Faces.SIX,
      Faces.SEVEN, Faces.EIGHT, Faces.NINE, Faces.TEN, Faces.JACK,
      Faces.QUEEN, Faces.KING].map fun f => ⟨f, s⟩

/-! ## Heap model for aliasing-sensitive operations

A Python `Pile` object stores in `_cards` a REFERENCE to a `list`
object; two `Pile` objects may hold the same reference.  The store maps
references (naturals) to list contents; `next` is the next unused
reference, so every reference below `next` is valid. -/

/-- The store of `list` objects: cell contents indexed by reference,
plus the next fresh reference. -/
structure PyState where
  cells : Nat → List Card
  next : Nat

/-- A `Pile` object: its `_cards` attribute, a reference to a `list`. -/
structure PileObj where
  cardsRef : Nat

/-- Read the list object a reference points to. -/
def readList (st : PyState) (r : Nat) : List Card :=
  st.cells r

/-- Overwrite (mutate in place) the list object a reference points to. -/
def writeList (st : PyState) (r : Nat) (l : List Card) : PyState :=
  ⟨fun i => if i = r then l else st.cells i, st.next⟩

/-- Allocate a fresh list object with the given contents. -/
def allocList (st : PyState) (l : List Card) : Nat × PyState :=
  (st.next, ⟨fun i => if i = st.next then l else st.cells i, st.next + 1⟩)

/-- `Pile.__init__` from `assets.py` (lines 168-174): with no argument
(`cards is None`) a fresh empty list is allocated; with a list argument
the new pile stores THAT list object (`self._cards = cards`), sharing
it with the caller. -/
def pileInitPy (st : PyState) (cards : Option Nat) : PileObj × PyState :=
  match cards with
  | none =>
    let (r, st') := allocList st []
    (⟨r⟩, st')
  | some r => (⟨r⟩, st)

/-- `Pile.copy` from `assets.py` (lines 254-256):
`return Pile(self._cards)`. -/
def pileCopyPy (st : PyState) (p : PileObj) : PileObj × PyState :=
  pileInitPy st (some p.cardsRef)

/-- `Pile.pop` acting on a pile object: raise `PileError` if the list is
empty, else remove and return its last element, mutating the shared
list object in place. -/
def pilePopPy (st : PyState) (p : PileObj) : Except PyError (Card × PyState) :=
  let cs := readList st p.cardsRef
  if h : cs = [] then
    .error .pileError
  else
    .ok (cs.getLast h, writeList st p.cardsRef cs.dropLast)

/-- `Pile.size` (`len(self._cards)`) of a pile object. -/
def pileSizePy (st : PyState) (p : PileObj) : Nat :=
  (readList st p.cardsRef).length

/-- `Pile.__eq__`: `self._cards == other.cards`, element-wise list
equality. -/
def pileEqPy (st : PyState) (p q : PileObj) : Prop :=
  readList st p.cardsRef = readList st q.cardsRef

/-- `Pile.__add__` from `assets.py` (lines 266-268):
`return Pile(self._cards.extend(other.cards))`.  `list.extend` mutates
`self`'s list object in place (appending the other list's elements,
which also works when the two references coincide) and returns `None`,
so the constructed pile is `Pile(None)`: a pile with a fresh empty
list. -/
def pileAddPy (st : PyState) (p q : PileObj) : PileObj × PyState :=
  let st' := writeList st p.cardsRef
    (readList st p.cardsRef ++ readList st q.cardsRef)
  pileInitPy st' none

/-! ## Named cards and concrete scenario states used by the theorems -/

/-- The ace of diamonds. -/
def aceDiamonds : Card := ⟨.ACE, .DIAMONDS⟩

/-- The ace of hearts. -/
def aceHearts : Card := ⟨.ACE, .HEARTS⟩

/-- The five of clubs. -/
def fiveClubs : Card := ⟨.FIVE, .CLUBS⟩

/-- The ten of hearts. -/
def tenHearts : Card := ⟨.TEN, .HEARTS⟩

/-- A store holding one list object, containing just the ace of hearts. -/
def copyScenarioState : PyState :=
  ⟨fun i => if i = 0 then [aceHearts] else [], 1⟩

/-- The pile object whose `_cards` is the single list of
`copyScenarioState`. -/
def copyScenarioPile : PileObj := ⟨0⟩

/-- A store holding two list objects: `[aceHearts]` and `[fiveClubs]`. -/
def addScenarioState : PyState :=
  ⟨fun i => if i = 0 then [aceHearts] else if i = 1 then [fiveClubs] else [], 2⟩

/-- The pile object referencing cell 0 of `addScenarioState`. -/
def addScenarioLeft : PileObj := ⟨0⟩

/-- The pile object referencing cell 1 of `addScenarioState`. -/
def addScenarioRight : PileObj := ⟨1⟩

/-! ## Theorems for the claims -/

/-- C1: the claim states card comparison is the lexicographic strict
total order on (face rank, suit rank).  In the code, `Card.__lt__`
first evaluates `self._face < other.face`, and `Faces` is a plain
`enum.Enum`, whose members define no `__lt__`; so comparing ANY two
cards raises `TypeError` instead of returning a boolean.  No pair
satisfies the claimed equivalence, and trichotomy fails as well. -/
theorem cardLt_raises_typeError :
    ∀ c1 c2 : Card, cardLtPy c1 c2 = Except.error PyError.typeError :=
  fun _ _ => rfl

/-- C2: the claim states `deal` never raises for insufficient cards and
that dealing 5 sets of 11 from a full 52-card deck returns 5 piles
summing to 52.  In the code, `Pile.pop` raises `PileError` on an empty
pile, but `Pile.deal` only catches `IndexError`; the 53rd pop (round 11,
third set) therefore escapes as an uncaught `PileError`. -/
theorem deal_5_11_raises_pileError :
    pileDeal 5 11 freshDeckCards = Except.error PyError.pileError := by
  rfl

/-- C3: the claim states parsing a card's typeable name returns the card
for EVERY constructible card, including the tens.  The ten of hearts has
typeable name `"10H"` (three characters), and
`Card.get_from_typeable_name` returns `None` whenever the input length
is not exactly 2, so the round trip fails for every ten. -/
theorem ten_roundtrip_returns_none :
    get_typeable_name tenHearts = ['1', '0', 'H'] ∧
    get_from_typeable_name (get_typeable_name tenHearts) = Except.ok none ∧
    (none : Option Card) ≠ some tenHearts := by
  refine ⟨rfl, rfl, by decide⟩

/-- C4: the claim states parsing fails with `CardError` for every
malformed input, in particular both `"5B"` and `"abcd"`.  In the code a
wrong-length input takes the `return None` branch without raising:
`"abcd"` yields `None`, while `"5B"` (right length, unknown suit letter)
does raise `CardError`. -/
theorem parse_abcd_none_but_5B_cardError :
    get_from_typeable_name ['a', 'b', 'c', 'd'] = Except.ok none ∧
    get_from_typeable_name ['5', 'B'] = Except.error PyError.cardError := by
  exact ⟨rfl, rfl⟩

/-- C5: the claim states sorting any shuffle outcome of a fresh deck
restores the fresh deck.  `Pile.sort` calls `list.sort`, whose first
action on any list of at least two cards is the comparison
`lo[1] < lo[0]` via `Card.__lt__`, which raises `TypeError` (plain
`enum.Enum` members are unorderable); the sort therefore raises instead
of reordering, for every permutation of the 52 cards. -/
theorem sort_raises_typeError (cs : List Card) (h : 2 ≤ cs.length) :
    pileSort cs = Except.error PyError.typeError := by
  match cs with
  | [] => simp at h
  | [a] => simp at h
  | a :: b :: rest => rfl

/-- Witness for C5: the fresh deck has 52 cards, and sorting it raises
`TypeError`. -/
theorem sort_raises_typeError_witness :
    2 ≤ freshDeckCards.length ∧
    pileSort freshDeckCards = Except.error PyError.typeError :=
  ⟨by decide, sort_raises_typeError freshDeckCards (by decide)⟩

/-- C6 counterexample: the claim states mutating `p.copy()` leaves `p`
unchanged.  Concretely, for a one-card pile `p`, `p.copy()` returns a
pile holding the SAME list object (`Pile(self._cards)` stores the given
list); popping the copy empties that shared list, so `p`'s size drops
from 1 to 0. -/
theorem copy_pop_changes_original :
    (pileCopyPy copyScenarioState copyScenarioPile).1.cardsRef =
      copyScenarioPile.cardsRef ∧
    (pileCopyPy copyScenarioState copyScenarioPile).2 = copyScenarioState ∧
    pilePopPy copyScenarioState (pileCopyPy copyScenarioState copyScenarioPile).1 =
      Except.ok (aceHearts, writeList copyScenarioState 0 []) ∧
    pileSizePy copyScenarioState copyScenarioPile = 1 ∧
    pileSizePy (writeList copyScenarioState 0 []) copyScenarioPile = 0 := by
  exact ⟨rfl, rfl, rfl, rfl, rfl⟩

/-- C6 amended: `copy()` returns a pile that compares equal to the
original, but it shares the original's backing list; popping the copy
of a nonempty pile decreases the ORIGINAL's size by one. -/
theorem copy_shares_backing_list (st : PyState) (p : PileObj)
    (h : readList st p.cardsRef ≠ []) :
    (pileCopyPy st p).1.cardsRef = p.cardsRef ∧
    (pileCopyPy st p).2 = st ∧
    pileEqPy st p (pileCopyPy st p).1 ∧
    ∀ c st2, pilePopPy st (pileCopyPy st p).1 = Except.ok (c, st2) →
      pileSizePy st2 p = pileSizePy st p - 1 := by
  refine ⟨rfl, rfl, rfl, ?_⟩
  intro c st2 hpop
  simp only [pileCopyPy, pileInitPy, pilePopPy] at hpop
  rw [dif_neg h] at hpop
  cases hpop
  simp [pileSizePy, readList, writeList]

/-- Witness for C6 amended: instantiated at the one-card scenario. -/
theorem copy_shares_backing_list_witness :
    pileSizePy (writeList copyScenarioState 0 []) copyScenarioPile =
      pileSizePy copyScenarioState copyScenarioPile - 1 := by
  have h := copy_shares_backing_list copyScenarioState copyScenarioPile (by decide)
  exact h.2.2.2 aceHearts (writeList copyScenarioState 0 []) rfl

/-- C7: a fresh `Deck` has 52 cards with no duplicates, containing each
(face, suit) pair exactly once, and the card at index `i` has face rank
`i % 13 + 1` and suit rank `i / 13 + 1`: the deck is ordered first by
suit in declared order (Diamonds, Clubs, Hearts, Spades), then by face
in declared order (Ace through King) within each suit. -/
theorem freshDeck_correct :
    freshDeckCards.length = 52 ∧
    freshDeckCards.Nodup ∧
    (∀ f : Faces, ∀ s : Suits, freshDeckCards.count (⟨f, s⟩ : Card) = 1) ∧
    (∀ i : Fin 52,
      facesValue ((freshDeckCards.getD i aceDiamonds).face) = i.val % 13 + 1 ∧
      suitsValue ((freshDeckCards.getD i aceDiamonds).suit) = i.val / 13 + 1) := by
  decide

/-- C8: the claim states `^` returns the cards in exactly one of the two
piles (union minus intersection).  The code evaluates
`(self or other) - (self and other)` with the boolean keywords, so for a
truthy (nonempty) left pile it computes `self - other`: for
`A = [A♦]`, `B = [A♥]`, the result is `[A♦]`, dropping `A♥` even though
`A♥` is in `union(A,B)` and not in `intersection(A,B)`. -/
theorem xor_is_not_union_minus_intersection :
    pileXor [aceDiamonds] [aceHearts] = [aceDiamonds] ∧
    aceHearts ∈ pileOr [aceDiamonds] [aceHearts] ∧
    aceHearts ∉ pileAnd [aceDiamonds] [aceHearts] ∧
    aceHearts ∉ pileXor [aceDiamonds] [aceHearts] := by
  decide

/-- C9 counterexample: the claim states insertion at a position outside
`[0, len]` fails with an index error rather than inserting the card.
`list.insert` never raises: inserting at position 5 into an empty pile
clamps the index and inserts the card at the end. -/
theorem insert_out_of_range_inserts :
    pileInsert [] (some 5) aceDiamonds = [aceDiamonds] ∧
    aceDiamonds ∈ pileInsert [] (some 5) aceDiamonds := by
  decide

/-- C9 amended: `insert` never fails for any integer position: a
position in `[0, len]` inserts at that index, the default inserts at the
top (index `len`), a position above `len` is clamped to the top, and a
position below `-len` is clamped to the bottom. -/
theorem insert_clamps_position (cs : List Card) (c : Card) (p : Int) :
    (0 ≤ p → p ≤ cs.length → pileInsert cs (some p) c = cs.insertIdx p.toNat c) ∧
    pileInsert cs none c = cs ++ [c] ∧
    ((cs.length : Int) < p → pileInsert cs (some p) c = cs ++ [c]) ∧
    (p < -(cs.length : Int) → pileInsert cs (some p) c = c :: cs) := by
  refine ⟨?_, ?_, ?_, ?_⟩
  · intro h0 h1
    simp only [pileInsert, listInsertPy]
    split_ifs <;> first | rfl | (exfalso; omega)
  · simp only [pileInsert, listInsertPy]
    split_ifs <;>
      first
        | (rw [Int.toNat_natCast, List.insertIdx_length_self])
        | (exfalso; omega)
  · intro h
    simp only [pileInsert, listInsertPy]
    split_ifs <;>
      first
        | (rw [Int.toNat_natCast, List.insertIdx_length_self])
        | (exfalso; omega)
  · intro h
    simp only [pileInsert, listInsertPy]
    split_ifs <;>
      first
        | (rw [show (0 : Int).toNat = 0 from rfl, List.insertIdx_zero])
        | (exfalso; omega)

/-- Witness for C9 amended: all four behaviours at concrete inputs. -/
theorem insert_clamps_position_witness :
    pileInsert [aceHearts] (some 1) fiveClubs = [aceHearts, fiveClubs] ∧
    pileInsert [aceHearts] none fiveClubs = [aceHearts, fiveClubs] ∧
    pileInsert [aceHearts] (some 5) fiveClubs = [aceHearts, fiveClubs] ∧
    pileInsert [aceHearts] (some (-5)) fiveClubs = [fiveClubs, aceHearts] := by
  have h1 := (insert_clamps_position [aceHearts] fiveClubs 1).1 (by decide) (by decide)
  have h2 := (insert_clamps_position [aceHearts] fiveClubs 1).2.1
  have h3 := (insert_clamps_position [aceHearts] fiveClubs 5).2.2.1 (by decide)
  have h4 := (insert_clamps_position [aceHearts] fiveClubs (-5)).2.2.2 (by decide)
  exact ⟨h1.trans (by decide), h2.trans rfl, h3.trans rfl, h4.trans rfl⟩

/-- C10: `p + q` mutates `p` in place, appending all of `q`'s cards to
`p`'s backing list, and returns a fresh empty pile (because
`list.extend` returns `None`, so the result is `Pile(None)`); the
returned pile's list is a new object distinct from both arguments'. -/
theorem add_mutates_left_and_returns_empty (st : PyState) (p q : PileObj)
    (hp : p.cardsRef < st.next) (hq : q.cardsRef < st.next) :
    readList (pileAddPy st p q).2 p.cardsRef =
      readList st p.cardsRef ++ readList st q.cardsRef ∧
    readList (pileAddPy st p q).2 (pileAddPy st p q).1.cardsRef = [] ∧
    (pileAddPy st p q).1.cardsRef ≠ p.cardsRef ∧
    (pileAddPy st p q).1.cardsRef ≠ q.cardsRef := by
  have hp' : p.cardsRef ≠ st.next := by omega
  have hq' : q.cardsRef ≠ st.next := by omega
  refine ⟨?_, ?_, Ne.symm hp', Ne.symm hq'⟩
  · simp [pileAddPy, pileInitPy, allocList, writeList, readList, hp']
  · simp [pileAddPy, pileInitPy, allocList, writeList, readList]

/-- Witness for C10: at a two-pile store, `p + q` leaves
`[A♥, 5♣]` in `p`'s list and returns an empty pile. -/
theorem add_mutates_left_witness :
    readList (pileAddPy addScenarioState addScenarioLeft addScenarioRight).2
      addScenarioLeft.cardsRef = [aceHearts, fiveClubs] ∧
    readList (pileAddPy addScenarioState addScenarioLeft addScenarioRight).2
      (pileAddPy addScenarioState addScenarioLeft addScenarioRight).1.cardsRef
      = [] := by
  have h := add_mutates_left_and_returns_empty addScenarioState addScenarioLeft
    addScenarioRight (by decide) (by decide)
  exact ⟨h.1.trans rfl, h.2.1⟩

end CardDeck
